import Mathlib

/-!
Shallow embedding of the `CustomVideoPlayer` widget
(`src/unnamed/part_000`, compiled form `src/dist/index.js`).

Times, durations and volumes are JS numbers; the widget only ever
combines them with `+`, `Math.floor`, `%` and string rendering, so they
are modelled as rationals (`ℚ`).  Range-input values (`progressBar.value`,
`volumeBar.value`) are stored by the DOM as decimal strings, but every
write is `toString` of a number and every read is numeric coercion
(`+this.progressBar.value`), so we model the numeric content directly.
Text displays (`textContent`) and icon classes (`className`) are strings.
-/

/-! ### Decimal rendering of numbers (JS `${n}` / `toString`) -/

/-- Decimal digit list of `n`, most significant first, with explicit fuel
(the recursion is on `n / 10`; fuel `n + 1` always suffices). -/
def natDigsAux : ℕ → ℕ → List Char
  | 0, _ => []
  | fuel + 1, n =>
    if n < 10 then [Nat.digitChar n]
    else natDigsAux fuel (n / 10) ++ [Nat.digitChar (n % 10)]

/-- Decimal string of a natural number, no leading zeros (`"0"` for zero). -/
def natStr (n : ℕ) : String := ⟨natDigsAux (n + 1) n⟩

/-- Decimal string of an integer, as JS renders an integral number. -/
def intStr (m : ℤ) : String :=
  if m < 0 then "-" ++ natStr m.natAbs else natStr m.toNat

/-! ### JS arithmetic primitives used by `formatTime` -/

/-- Truncation toward zero, as JS `%` truncates its implied quotient. -/
def jsTrunc (q : ℚ) : ℤ := if 0 ≤ q then ⌊q⌋ else ⌈q⌉

/-- JS remainder operator `a % b`: `a - b * trunc (a / b)`. -/
def jsRem (a b : ℚ) : ℚ := a - b * (jsTrunc (a / b) : ℚ)

/-- Embedding of `formatTime(seconds)`:
`min = Math.floor(seconds / 60); sec = Math.floor(seconds % 60);`
returning `` `${min}:${(sec < 10 ? '0' : '') + sec}` ``. -/
def formatTime (seconds : ℚ) : String :=
  intStr ⌊seconds / 60⌋ ++ ":" ++
    ((if ⌊jsRem seconds 60⌋ < 10 then "0" else "") ++ intStr ⌊jsRem seconds 60⌋)

/-! ### Spec-side formulation of the time format (for the refinement claim) -/

/-- Zero-padding to two digits, as the spec words it. -/
def padTwo (n : ℕ) : String := if n < 10 then "0" ++ natStr n else natStr n

/-- Spec-side format: total floored seconds split by integer division,
minutes with no leading zero, seconds zero-padded to two digits. -/
def formatTimeSpec (d : ℚ) : String :=
  natStr (⌊d⌋.toNat / 60) ++ ":" ++ padTwo (⌊d⌋.toNat % 60)

/-! ### Lemmas about decimal rendering -/

theorem natDigsAux_succ (f n : ℕ) : natDigsAux (f + 1) n =
    if n < 10 then [Nat.digitChar n]
    else natDigsAux f (n / 10) ++ [Nat.digitChar (n % 10)] := rfl

theorem natDigsAux_fuel (n : ℕ) : ∀ f g : ℕ, n < f → n < g →
    natDigsAux f n = natDigsAux g n := by
  induction n using Nat.strong_induction_on with
  | _ n ih =>
    intro f g hf hg
    match f, g with
    | f' + 1, g' + 1 =>
      rw [natDigsAux_succ, natDigsAux_succ]
      by_cases h10 : n < 10
      · rw [if_pos h10, if_pos h10]
      · have hdiv : n / 10 < n := Nat.div_lt_self (by omega) (by omega)
        rw [if_neg h10, if_neg h10,
          ih (n / 10) hdiv f' g' (by omega) (by omega)]

theorem natStr_data (n : ℕ) : (natStr n).data =
    if n < 10 then [Nat.digitChar n]
    else (natStr (n / 10)).data ++ [Nat.digitChar (n % 10)] := by
  show natDigsAux (n + 1) n = _
  rw [natDigsAux_succ]
  by_cases h10 : n < 10
  · rw [if_pos h10, if_pos h10]
  · have hdiv : n / 10 < n := Nat.div_lt_self (by omega) (by omega)
    rw [if_neg h10, if_neg h10]
    show natDigsAux n (n / 10) ++ _ = natDigsAux (n / 10 + 1) (n / 10) ++ _
    rw [natDigsAux_fuel (n / 10) n (n / 10 + 1) hdiv (by omega)]

theorem natStr_data_ne_nil (n : ℕ) : (natStr n).data ≠ [] := by
  rw [natStr_data]
  by_cases h10 : n < 10 <;> simp [h10]

theorem digitChar_isDigit (n : ℕ) (h : n < 10) : (Nat.digitChar n).isDigit := by
  interval_cases n <;> decide

theorem natStr_all_digits (n : ℕ) : ∀ c ∈ (natStr n).data, c.isDigit := by
  induction n using Nat.strong_induction_on with
  | _ n ih =>
    intro c hc
    rw [natStr_data] at hc
    by_cases h10 : n < 10
    · simp [h10] at hc
      exact hc ▸ digitChar_isDigit n h10
    · simp only [h10, if_false, List.mem_append, List.mem_singleton] at hc
      rcases hc with hc | hc
      · exact ih (n / 10) (Nat.div_lt_self (by omega) (by omega)) c hc
      · exact hc ▸ digitChar_isDigit (n % 10) (Nat.mod_lt n (by omega))

theorem natStr_no_leading_zero (n : ℕ) : n ≠ 0 →
    ∀ rest : List Char, (natStr n).data ≠ '0' :: rest := by
  induction n using Nat.strong_induction_on with
  | _ n ih =>
    intro hn rest heq
    rw [natStr_data] at heq
    by_cases h10 : n < 10
    · rw [if_pos h10] at heq
      injection heq with h1 h2
      have h1n : 1 ≤ n := by omega
      have h9n : n ≤ 9 := by omega
      interval_cases n <;> exact absurd h1 (by decide)
    · rw [if_neg h10] at heq
      obtain ⟨a, t, hat⟩ : ∃ a t, (natStr (n / 10)).data = a :: t := by
        cases h : (natStr (n / 10)).data with
        | nil => exact absurd h (natStr_data_ne_nil _)
        | cons a t => exact ⟨a, t, rfl⟩
      rw [hat, List.cons_append] at heq
      injection heq with h1 h2
      exact ih (n / 10) (Nat.div_lt_self (by omega) (by omega)) (by omega)
        t (by rw [hat, h1])

theorem natStr_two_digits (n : ℕ) (h1 : 10 ≤ n) (h2 : n < 100) :
    (natStr n).data = [Nat.digitChar (n / 10), Nat.digitChar (n % 10)] := by
  rw [natStr_data]
  have h10 : ¬ n < 10 := by omega
  have hq1 : 1 ≤ n / 10 := by omega
  have hq10 : n / 10 < 10 := by omega
  simp only [h10, if_false]
  rw [natStr_data]
  simp [hq10]

theorem string_data_append (a b : String) : (a ++ b).data = a.data ++ b.data := rfl

theorem intStr_nonneg (m : ℤ) (h : 0 ≤ m) : intStr m = natStr m.toNat := by
  rw [intStr, if_neg (not_lt.mpr h)]

/-! ### Arithmetic facts about the floored time components -/

theorem jsRem_sixty_eq (d : ℚ) (hd : 0 ≤ d) :
    jsRem d 60 = d - 60 * (⌊d / 60⌋ : ℚ) := by
  rw [jsRem, jsTrunc, if_pos (by positivity)]

theorem floor_div_sixty_toNat (d : ℚ) (hd : 0 ≤ d) :
    ⌊d / 60⌋.toNat = ⌊d⌋.toNat / 60 := by
  rw [Int.floor_toNat, Int.floor_toNat]
  have h60 : (60 : ℚ) = ((60 : ℕ) : ℚ) := by norm_num
  rw [h60, Nat.floor_div_nat]

theorem floor_jsRem_sixty (d : ℚ) (hd : 0 ≤ d) :
    ⌊jsRem d 60⌋ = ((⌊d⌋.toNat % 60 : ℕ) : ℤ) := by
  rw [jsRem_sixty_eq d hd]
  have h1 : d - 60 * (⌊d / 60⌋ : ℚ) = d - ((60 * ⌊d / 60⌋ : ℤ) : ℚ) := by
    push_cast
    ring
  rw [h1, Int.floor_sub_int]
  have hF : 0 ≤ ⌊d⌋ := Int.floor_nonneg.mpr hd
  have hm0 : 0 ≤ ⌊d / 60⌋ := Int.floor_nonneg.mpr (by positivity)
  have hm : ⌊d / 60⌋.toNat = ⌊d⌋.toNat / 60 := floor_div_sixty_toNat d hd
  omega

/-- Core refinement: for nonnegative times the source formatter agrees with
the spec-side integer-division formulation. -/
theorem formatTime_eq_spec (d : ℚ) (hd : 0 ≤ d) : formatTime d = formatTimeSpec d := by
  have hm0 : 0 ≤ ⌊d / 60⌋ := Int.floor_nonneg.mpr (by positivity)
  have hm : ⌊d / 60⌋.toNat = ⌊d⌋.toNat / 60 := floor_div_sixty_toNat d hd
  have hsec := floor_jsRem_sixty d hd
  rw [formatTime, formatTimeSpec, hsec, intStr_nonneg _ hm0, hm,
    intStr_nonneg _ (by omega), Int.toNat_natCast, padTwo]
  by_cases hlt : ⌊d⌋.toNat % 60 < 10
  · rw [if_pos (by exact_mod_cast hlt), if_pos hlt, String.append_assoc]
  · rw [if_neg (by exact_mod_cast hlt), if_neg hlt]
    have : ("" ++ natStr (⌊d⌋.toNat % 60)) = natStr (⌊d⌋.toNat % 60) := by
      apply String.ext
      rw [string_data_append]
      rfl
    rw [this]

/-! ### Widget and engine state

One record holds the engine-owned playback state (`paused`, `currentTime`,
`duration`, `muted`, `volume`), the widget-owned fields (`isSeeking`,
`previousVolume`), the range inputs' numeric values and maximum, the two
icon classes, the two time displays, and the runtime's fullscreen flag. -/

structure PlayerState where
  paused : Bool
  currentTime : ℚ
  duration : ℚ
  muted : Bool
  volume : ℚ
  isSeeking : Bool
  previousVolume : ℚ
  progressBarValue : ℚ
  progressBarMax : ℚ
  volumeBarValue : ℚ
  playIcon : String
  muteIcon : String
  currentTimeText : String
  durationText : String
  fullscreen : Bool
  deriving DecidableEq

/-- State right after `createElements` ran: video element paused at time 0
with volume 1, unmuted; `progressBar` built with `min 0 max 0 value '0'`;
`volumeBar` built with `value '1'`; both displays created with text
`'00:00'`; icons as passed to `createButton`.  The engine reports no
duration before `loadedmetadata`; the widget never reads it until then,
and we represent that absent value as 0. -/
def initState : PlayerState where
  paused := true
  currentTime := 0
  duration := 0
  muted := false
  volume := 1
  isSeeking := false
  previousVolume := 1
  progressBarValue := 0
  progressBarMax := 0
  volumeBarValue := 1
  playIcon := "fa-solid fa-play"
  muteIcon := "fa-solid fa-volume-up"
  currentTimeText := "00:00"
  durationText := "00:00"
  fullscreen := false

/-- Embedding of `togglePlay()`. -/
def togglePlay (s : PlayerState) : PlayerState :=
  if s.paused then
    { s with paused := false, playIcon := "fa-solid fa-pause" }
  else
    { s with paused := true, playIcon := "fa-solid fa-play" }

/-- Embedding of `toggleMute()`. -/
def toggleMute (s : PlayerState) : PlayerState :=
  if s.muted then
    { s with muted := false, volume := s.previousVolume,
             volumeBarValue := s.previousVolume,
             muteIcon := "fa-solid fa-volume-up" }
  else
    { s with previousVolume := s.volume, muted := true, volume := 0,
             volumeBarValue := 0,
             muteIcon := "fa-solid fa-volume-xmark" }

/-- Embedding of `toggleFullscreen()`; the runtime's reaction to
`exitFullscreen` / `requestFullscreen` is modelled as flipping the flag. -/
def toggleFullscreen (s : PlayerState) : PlayerState :=
  if s.fullscreen then { s with fullscreen := false }
  else { s with fullscreen := true }

/-- Embedding of `skipTime(seconds)`: `currentTime += seconds`, nothing else. -/
def skipTime (seconds : ℚ) (s : PlayerState) : PlayerState :=
  { s with currentTime := s.currentTime + seconds }

/-- Embedding of `updateProgress()`, the `timeupdate` handler. -/
def updateProgress (s : PlayerState) : PlayerState :=
  if s.isSeeking then s
  else { s with progressBarValue := s.currentTime,
                currentTimeText := formatTime s.currentTime }

/-- Embedding of the `loadedmetadata` handler. -/
def loadedMetadata (s : PlayerState) : PlayerState :=
  { s with progressBarMax := s.duration,
           durationText := formatTime s.duration }

/-- Embedding of the `progressBar` `input` handler: sets the seeking flag
and forces `currentTime` to the (already dragged) bar value. -/
def seekInputHandler (s : PlayerState) : PlayerState :=
  { s with isSeeking := true, currentTime := s.progressBarValue }

/-- Embedding of the `progressBar` `change` handler. -/
def seekChangeHandler (s : PlayerState) : PlayerState :=
  { s with isSeeking := false }

/-- Embedding of the `volumeBar` `input` handler: sets the engine volume
to the (already dragged) bar value, and nothing else. -/
def volumeInputHandler (s : PlayerState) : PlayerState :=
  { s with volume := s.volumeBarValue }

/-- A full seek drag step: the DOM updates the bar value, then the
`input` handler runs. -/
def seekDrag (v : ℚ) (s : PlayerState) : PlayerState :=
  seekInputHandler { s with progressBarValue := v }

/-- A full volume drag step: the DOM updates the bar value, then the
`input` handler runs. -/
def volumeDrag (v : ℚ) (s : PlayerState) : PlayerState :=
  volumeInputHandler { s with volumeBarValue := v }

/-! ### Construction and the DOM document -/

/-- The document, at the granularity construction observes and mutates:
which element ids resolve, which children were appended to a mounted
container, and how many style blocks were appended to the head. -/
structure Document where
  containerIds : List String
  mountedChildren : List (String × String)
  styleBlocks : ℕ
  deriving DecidableEq

/-- Embedding of `validateInputs()`: `getElementById` on the container id
must resolve, then the url must be non-empty (JS falsiness of a string). -/
def validateInputs (doc : Document) (containerId videoUrl : String) :
    Except String Unit :=
  if containerId ∈ doc.containerIds then
    if videoUrl = "" then Except.error "Video URL is required."
    else Except.ok ()
  else Except.error ("Invalid container ID: " ++ containerId)

/-- Embedding of the document mutations of `createElements()`: the video
element and the controls container are appended to the mount container
(all other appends build detached nodes inside those two). -/
def createElements (doc : Document) (containerId : String) : Document :=
  { doc with mountedChildren :=
      doc.mountedChildren ++ [(containerId, "video"), (containerId, "controls")] }

/-- Embedding of the document mutation of `addStyles()`: one style block
appended to the head. -/
def addStyles (doc : Document) : Document :=
  { doc with styleBlocks := doc.styleBlocks + 1 }

/-- Embedding of the constructor: validate, then build the DOM, bind
handlers and inject styles; a validation error aborts before any
document mutation (the JS `throw` leaves the document untouched). -/
def construct (doc : Document) (containerId videoUrl : String) :
    Document × Except String PlayerState :=
  match validateInputs doc containerId videoUrl with
  | Except.error e => (doc, Except.error e)
  | Except.ok _ => (addStyles (createElements doc containerId), Except.ok initState)

/-! ### Shape of the formatter output -/

theorem digit_ne_colon (c : Char) (h : c.isDigit) : c ≠ ':' := by
  intro hc
  rw [hc] at h
  exact absurd h (by decide)

theorem count_colon_natStr (n : ℕ) : (natStr n).data.count ':' = 0 := by
  rw [List.count_eq_zero]
  intro hmem
  exact digit_ne_colon ':' (natStr_all_digits n ':' hmem) rfl

theorem padTwo_data (k : ℕ) (hk : k < 60) :
    ∃ a b : Char, a.isDigit ∧ b.isDigit ∧ (padTwo k).data = [a, b] := by
  by_cases h10 : k < 10
  · refine ⟨'0', Nat.digitChar k, by decide, digitChar_isDigit k h10, ?_⟩
    rw [padTwo, if_pos h10, string_data_append, natStr_data, if_pos h10]
    rfl
  · exact ⟨Nat.digitChar (k / 10), Nat.digitChar (k % 10),
      digitChar_isDigit _ (by omega), digitChar_isDigit _ (by omega),
      by rw [padTwo, if_neg h10, natStr_two_digits k (by omega) (by omega)]⟩

theorem formatTime_data (d : ℚ) : (formatTime d).data =
    (intStr ⌊d / 60⌋).data ++ ':' ::
      ((if ⌊jsRem d 60⌋ < 10 then "0" else "") ++ intStr ⌊jsRem d 60⌋).data := by
  rw [formatTime, string_data_append, string_data_append, List.append_assoc]
  rfl

/-- The formatter can never render the literal five-character string
`"00:00"`: its minutes part has no leading zero. -/
theorem formatTime_ne_double_zero (d : ℚ) : formatTime d ≠ "00:00" := by
  intro h
  have hdata : (formatTime d).data = ['0', '0', ':', '0', '0'] := by rw [h]
  rw [formatTime_data] at hdata
  rcases lt_or_le ⌊d / 60⌋ 0 with hneg | hpos
  · rw [intStr, if_pos hneg, string_data_append,
      show ("-" : String).data = ['-'] from rfl, List.singleton_append,
      List.cons_append] at hdata
    injection hdata with h1 _
    exact absurd h1 (by decide)
  · rw [intStr_nonneg _ hpos] at hdata
    by_cases hz : ⌊d / 60⌋.toNat = 0
    · rw [hz, show (natStr 0).data = ['0'] from rfl, List.singleton_append] at hdata
      injection hdata with _ h2
      injection h2 with h3 _
      exact absurd h3 (by decide)
    · obtain ⟨a, t, hat⟩ : ∃ a t, (natStr ⌊d / 60⌋.toNat).data = a :: t := by
        cases hh : (natStr ⌊d / 60⌋.toNat).data with
        | nil => exact absurd hh (natStr_data_ne_nil _)
        | cons a t => exact ⟨a, t, rfl⟩
      rw [hat, List.cons_append] at hdata
      injection hdata with h1 _
      exact natStr_no_leading_zero _ hz t (by rw [hat, h1])

/-! ### Concrete formatter evaluations -/

theorem formatTime_sixtyfive : formatTime 65 = "1:05" := by
  rw [formatTime_eq_spec 65 (by decide), formatTimeSpec,
    show ⌊(65 : ℚ)⌋ = 65 from by simp]
  decide

theorem formatTime_three : formatTime 3 = "0:03" := by
  rw [formatTime_eq_spec 3 (by decide), formatTimeSpec,
    show ⌊(3 : ℚ)⌋ = 3 from by simp]
  decide

theorem formatTime_zero : formatTime 0 = "0:00" := by
  rw [formatTime_eq_spec 0 (by decide), formatTimeSpec, Int.floor_zero]
  decide

theorem formatTime_fractional : formatTime (1259/10) = "2:05" := by
  rw [formatTime_eq_spec (1259/10) (by norm_num), formatTimeSpec,
    show ⌊(1259/10 : ℚ)⌋ = 125 from by
      rw [show (1259/10 : ℚ) = ((1259 : ℕ) : ℚ) / ((10 : ℕ) : ℚ) from by norm_num,
        Rat.floor_natCast_div_natCast]
      decide]
  decide

/-! ### C1 -/

/-- C1: for every seconds value `d ≥ 0` (fractional allowed) `formatTime`
returns `"{floor(d/60)}:{floor(d%60) zero-padded to two digits}"` —
minutes rendered with no leading zero, seconds always exactly two digit
characters, and exactly one `':'` (so no hours component is ever
produced); in particular `formatTime 65 = "1:05"`, `formatTime 3 = "0:03"`
and `formatTime 125.9 = "2:05"`. -/
theorem C1_formatTime_correct :
    (∀ d : ℚ, 0 ≤ d →
      formatTime d = natStr (⌊d⌋.toNat / 60) ++ ":" ++ padTwo (⌊d⌋.toNat % 60) ∧
      formatTime d = intStr ⌊d / 60⌋ ++ ":" ++ padTwo ⌊jsRem d 60⌋.toNat ∧
      (⌊d⌋.toNat / 60 ≠ 0 →
        ∀ rest, (natStr (⌊d⌋.toNat / 60)).data ≠ '0' :: rest) ∧
      (∃ a b : Char, a.isDigit ∧ b.isDigit ∧
        (formatTime d).data = (natStr (⌊d⌋.toNat / 60)).data ++ ':' :: [a, b]) ∧
      (formatTime d).data.count ':' = 1) ∧
    formatTime 65 = "1:05" ∧ formatTime 3 = "0:03" ∧
    formatTime (1259/10) = "2:05" := by
  refine ⟨?_, formatTime_sixtyfive, formatTime_three, formatTime_fractional⟩
  intro d hd
  have hspec := formatTime_eq_spec d hd
  have hK : ⌊d⌋.toNat % 60 < 60 := Nat.mod_lt _ (by omega)
  obtain ⟨a, b, ha, hb, hab⟩ := padTwo_data _ hK
  have hshape : (formatTime d).data =
      (natStr (⌊d⌋.toNat / 60)).data ++ ':' :: [a, b] := by
    rw [hspec, formatTimeSpec, string_data_append, string_data_append,
      List.append_assoc, hab]
    rfl
  refine ⟨hspec, ?_, fun hM rest => natStr_no_leading_zero _ hM rest,
    ⟨a, b, ha, hb, hshape⟩, ?_⟩
  · have hm0 : 0 ≤ ⌊d / 60⌋ := Int.floor_nonneg.mpr (by positivity)
    rw [hspec, formatTimeSpec, intStr_nonneg _ hm0, floor_div_sixty_toNat d hd,
      floor_jsRem_sixty d hd, Int.toNat_natCast]
  · have hzero : ([a, b] : List Char).count ':' = 0 := by
      rw [List.count_eq_zero]
      intro hmem
      rcases List.mem_cons.mp hmem with hx | hx
      · exact absurd hx.symm (digit_ne_colon a ha)
      · rcases List.mem_cons.mp hx with hy | hy
        · exact absurd hy.symm (digit_ne_colon b hb)
        · exact absurd hy (List.not_mem_nil ':')
    rw [hshape, List.count_append, count_colon_natStr, List.count_cons_self, hzero]

/-- Witness for C1 at `d = 65`. -/
theorem C1_formatTime_correct_witness :
    0 ≤ (65 : ℚ) ∧
    formatTime 65 =
      natStr (⌊(65 : ℚ)⌋.toNat / 60) ++ ":" ++ padTwo (⌊(65 : ℚ)⌋.toNat % 60) :=
  ⟨by decide, (C1_formatTime_correct.1 65 (by decide)).1⟩

/-! ### C2 -/

/-- C2: from any state with the muted flag clear, toggling mute twice
(mute then unmute) restores the engine volume exactly and clears the
muted flag. -/
theorem C2_mute_roundtrip (s : PlayerState) (h : s.muted = false) :
    (toggleMute (toggleMute s)).volume = s.volume ∧
    (toggleMute (toggleMute s)).muted = false := by
  have h1 : toggleMute s =
      { s with previousVolume := s.volume, muted := true, volume := 0,
               volumeBarValue := 0, muteIcon := "fa-solid fa-volume-xmark" } := by
    rw [toggleMute, if_neg (by simp [h])]
  have h2 : toggleMute (toggleMute s) =
      { s with previousVolume := s.volume, muted := false, volume := s.volume,
               volumeBarValue := s.volume,
               muteIcon := "fa-solid fa-volume-up" } := by
    rw [h1, toggleMute, if_pos rfl]
  rw [h2]
  exact ⟨rfl, rfl⟩

/-- Witness for C2 at the freshly constructed (unmuted) state. -/
theorem C2_mute_roundtrip_witness :
    initState.muted = false ∧
    (toggleMute (toggleMute initState)).volume = initState.volume ∧
    (toggleMute (toggleMute initState)).muted = false :=
  ⟨rfl, C2_mute_roundtrip initState rfl⟩

/-! ### C3 -/

/-- C3: construction with a mount-point id that does not resolve fails
with the `"Invalid container ID: …"` error; construction with an empty
resource locator fails with the `"Video URL is required."` error; in both
cases the returned document is the input document unchanged — no element
was appended and no style block injected. -/
theorem C3_construction_validation (doc : Document) (cid url : String) :
    (cid ∉ doc.containerIds →
      construct doc cid url =
        (doc, Except.error ("Invalid container ID: " ++ cid))) ∧
    (cid ∈ doc.containerIds → url = "" →
      construct doc cid url = (doc, Except.error "Video URL is required.")) := by
  constructor
  · intro h
    rw [construct, validateInputs, if_neg h]
  · intro h1 h2
    rw [construct, validateInputs, if_pos h1, if_pos h2]

/-- Witness for C3 on a one-container document. -/
theorem C3_construction_validation_witness :
    "nope" ∉ (Document.mk ["video1"] [] 0).containerIds ∧
    construct (Document.mk ["video1"] [] 0) "nope" "../videos/Nice-1.mp4" =
      (Document.mk ["video1"] [] 0,
        Except.error ("Invalid container ID: " ++ "nope")) ∧
    "video1" ∈ (Document.mk ["video1"] [] 0).containerIds ∧
    construct (Document.mk ["video1"] [] 0) "video1" "" =
      (Document.mk ["video1"] [] 0, Except.error "Video URL is required.") :=
  ⟨by decide,
    (C3_construction_validation (Document.mk ["video1"] [] 0) "nope"
      "../videos/Nice-1.mp4").1 (by decide),
    by decide,
    (C3_construction_validation (Document.mk ["video1"] [] 0) "video1" "").2
      (by decide) rfl⟩

/-! ### C4 -/

theorem updateProgress_fold_seeking (ts : List ℚ) : ∀ s : PlayerState,
    s.isSeeking = true →
    (ts.foldl (fun st t => updateProgress { st with currentTime := t }) s).isSeeking
        = true ∧
    (ts.foldl (fun st t => updateProgress { st with currentTime := t }) s).progressBarValue
        = s.progressBarValue ∧
    (ts.foldl (fun st t => updateProgress { st with currentTime := t }) s).currentTimeText
        = s.currentTimeText := by
  induction ts with
  | nil => exact fun s h => ⟨h, rfl, rfl⟩
  | cons t ts ih =>
    intro s h
    rw [List.foldl_cons]
    have hstep : updateProgress { s with currentTime := t }
        = { s with currentTime := t } := by
      rw [updateProgress, if_pos (show ({ s with currentTime := t} : PlayerState).isSeeking = true from h)]
    rw [hstep]
    exact ih { s with currentTime := t } h

/-- C4: while the seeking flag is set, any sequence of `timeupdate`
events (each advancing the engine time, then running `updateProgress`)
leaves the seek bar's value and the elapsed-time display unchanged (and
the flag set); when the flag is clear, `updateProgress` writes the
current time into the bar and the formatted current time into the
display. -/
theorem C4_seeking_isolation :
    (∀ s : PlayerState, s.isSeeking = true → ∀ ts : List ℚ,
      (ts.foldl (fun st t => updateProgress { st with currentTime := t }) s).progressBarValue
          = s.progressBarValue ∧
      (ts.foldl (fun st t => updateProgress { st with currentTime := t }) s).currentTimeText
          = s.currentTimeText) ∧
    (∀ s : PlayerState, s.isSeeking = false →
      updateProgress s = { s with progressBarValue := s.currentTime,
                                  currentTimeText := formatTime s.currentTime }) := by
  constructor
  · intro s h ts
    exact ⟨(updateProgress_fold_seeking ts s h).2.1,
           (updateProgress_fold_seeking ts s h).2.2⟩
  · intro s h
    rw [updateProgress, if_neg (by simp [h])]

/-- Witness for C4: a seeking state absorbs two `timeupdate` events; the
fresh state applies one. -/
theorem C4_seeking_isolation_witness :
    ({ initState with isSeeking := true } : PlayerState).isSeeking = true ∧
    (([1, 2] : List ℚ).foldl (fun st t => updateProgress { st with currentTime := t })
        { initState with isSeeking := true }).progressBarValue
      = ({ initState with isSeeking := true } : PlayerState).progressBarValue ∧
    initState.isSeeking = false ∧
    updateProgress initState =
      { initState with progressBarValue := initState.currentTime,
                       currentTimeText := formatTime initState.currentTime } :=
  ⟨rfl, (C4_seeking_isolation.1 { initState with isSeeking := true } rfl [1, 2]).1,
   rfl, C4_seeking_isolation.2 initState rfl⟩

/-! ### C5 -/

/-- C5: invoked while unmuted, `toggleMute` saves the engine volume into
`previousVolume`, sets the muted flag, zeroes the engine volume and the
volume slider, and sets the mute icon to the muted-speaker glyph class
(the spec's "volume-muted" glyph, which the source spells
`"fa-solid fa-volume-xmark"`), changing nothing else. -/
theorem C5_mute_action (s : PlayerState) (h : s.muted = false) :
    toggleMute s = { s with previousVolume := s.volume, muted := true,
                            volume := 0, volumeBarValue := 0,
                            muteIcon := "fa-solid fa-volume-xmark" } := by
  rw [toggleMute, if_neg (by simp [h])]

/-- Witness for C5 at the freshly constructed state. -/
theorem C5_mute_action_witness :
    initState.muted = false ∧
    toggleMute initState =
      { initState with previousVolume := initState.volume, muted := true,
                       volume := 0, volumeBarValue := 0,
                       muteIcon := "fa-solid fa-volume-xmark" } :=
  ⟨rfl, C5_mute_action initState rfl⟩

/-! ### C6 -/

/-- C6: `previousVolume` defaults to 1; every operation except the mute
branch of `toggleMute` leaves it unchanged; the mute branch writes the
current engine volume into it; no operation other than the unmute branch
depends on it (each commutes with overwriting the field, and the unmuted
`toggleMute` branch is insensitive to its value); and `toggleMute` never
writes either text display, so the remembered volume is never shown. -/
theorem C6_previousVolume_invariant :
    initState.previousVolume = 1 ∧
    (∀ (s : PlayerState) (d v : ℚ),
      (togglePlay s).previousVolume = s.previousVolume ∧
      (toggleFullscreen s).previousVolume = s.previousVolume ∧
      (skipTime d s).previousVolume = s.previousVolume ∧
      (updateProgress s).previousVolume = s.previousVolume ∧
      (loadedMetadata s).previousVolume = s.previousVolume ∧
      (seekInputHandler s).previousVolume = s.previousVolume ∧
      (seekChangeHandler s).previousVolume = s.previousVolume ∧
      (volumeInputHandler s).previousVolume = s.previousVolume ∧
      (seekDrag v s).previousVolume = s.previousVolume ∧
      (volumeDrag v s).previousVolume = s.previousVolume) ∧
    (∀ s : PlayerState, (toggleMute s).previousVolume =
      if s.muted then s.previousVolume else s.volume) ∧
    (∀ (s : PlayerState) (p d v : ℚ),
      togglePlay { s with previousVolume := p }
        = { togglePlay s with previousVolume := p } ∧
      toggleFullscreen { s with previousVolume := p }
        = { toggleFullscreen s with previousVolume := p } ∧
      skipTime d { s with previousVolume := p }
        = { skipTime d s with previousVolume := p } ∧
      updateProgress { s with previousVolume := p }
        = { updateProgress s with previousVolume := p } ∧
      loadedMetadata { s with previousVolume := p }
        = { loadedMetadata s with previousVolume := p } ∧
      seekInputHandler { s with previousVolume := p }
        = { seekInputHandler s with previousVolume := p } ∧
      seekChangeHandler { s with previousVolume := p }
        = { seekChangeHandler s with previousVolume := p } ∧
      volumeInputHandler { s with previousVolume := p }
        = { volumeInputHandler s with previousVolume := p } ∧
      seekDrag v { s with previousVolume := p }
        = { seekDrag v s with previousVolume := p } ∧
      volumeDrag v { s with previousVolume := p }
        = { volumeDrag v s with previousVolume := p } ∧
      toggleMute { s with previousVolume := p } =
        (if s.muted then
          { s with muted := false, volume := p, volumeBarValue := p,
                   muteIcon := "fa-solid fa-volume-up", previousVolume := p }
         else toggleMute s)) ∧
    (∀ s : PlayerState, (toggleMute s).currentTimeText = s.currentTimeText ∧
      (toggleMute s).durationText = s.durationText) := by
  refine ⟨rfl, ?_, ?_, ?_, ?_⟩
  · intro s d v
    refine ⟨?_, ?_, rfl, ?_, rfl, rfl, rfl, rfl, rfl, rfl⟩
    · simp only [togglePlay]
      split_ifs <;> rfl
    · simp only [toggleFullscreen]
      split_ifs <;> rfl
    · simp only [updateProgress]
      split_ifs <;> rfl
  · intro s
    simp only [toggleMute]
    split_ifs <;> rfl
  · intro s p d v
    refine ⟨?_, ?_, rfl, ?_, rfl, rfl, rfl, rfl, rfl, rfl, ?_⟩
    · cases hp : s.paused <;> simp [togglePlay, hp]
    · cases hf : s.fullscreen <;> simp [toggleFullscreen, hf]
    · cases hs : s.isSeeking <;> simp [updateProgress, hs]
    · cases hm : s.muted <;> simp [toggleMute, hm]
  · intro s
    constructor <;> (simp only [toggleMute]; split_ifs <;> rfl)

/-! ### C7 -/

/-- C7: `skipTime` adds its delta directly to the current playback
position and changes nothing else (no clamping in the widget); hence
skip(-5) followed by skip(+5) is the identity on the whole state,
provided nothing (such as engine-side clamping) intervenes between the
two — which the model, like the widget, does not do. -/
theorem C7_skip_net_zero :
    (∀ (s : PlayerState) (d : ℚ),
      skipTime d s = { s with currentTime := s.currentTime + d }) ∧
    (∀ s : PlayerState, skipTime 5 (skipTime (-5) s) = s) := by
  refine ⟨fun s d => rfl, fun s => ?_⟩
  rw [skipTime, skipTime]
  have h : s.currentTime + (-5) + 5 = s.currentTime := by ring
  rw [h]

/-! ### C8 -/

/-- C8 counterexample: in a paused state whose play button shows the
pause glyph (reachable — the engine pauses on its own at end of media and
the widget listens to no engine pause event), toggling twice does not
restore the original icon class. -/
theorem C8_counterexample :
    ({ initState with playIcon := "fa-solid fa-pause" } : PlayerState).paused = true ∧
    (togglePlay (togglePlay { initState with playIcon := "fa-solid fa-pause" })).playIcon
      ≠ ({ initState with playIcon := "fa-solid fa-pause" } : PlayerState).playIcon :=
  ⟨rfl, by decide⟩

/-- C8 (amended): from any paused state, toggling play/pause twice
returns the engine to paused and sets the play button's icon class to the
`"fa-solid fa-play"` glyph; when the paused state already showed that
glyph — as every widget-maintained paused state does — the double toggle
is the identity, restoring the original icon. -/
theorem C8_toggle_twice_paused (s : PlayerState) (h : s.paused = true) :
    (togglePlay (togglePlay s)).paused = true ∧
    (togglePlay (togglePlay s)).playIcon = "fa-solid fa-play" ∧
    (s.playIcon = "fa-solid fa-play" → togglePlay (togglePlay s) = s) := by
  have h1 : togglePlay s = { s with paused := false,
                                    playIcon := "fa-solid fa-pause" } := by
    rw [togglePlay, if_pos h]
  have h2 : togglePlay (togglePlay s) =
      { s with paused := true, playIcon := "fa-solid fa-play" } := by
    rw [h1]
    simp [togglePlay]
  rw [h2]
  refine ⟨rfl, rfl, fun hicon => ?_⟩
  rw [← h, ← hicon]

/-- Witness for the amended C8 at the freshly constructed state. -/
theorem C8_toggle_twice_paused_witness :
    initState.paused = true ∧
    (togglePlay (togglePlay initState)).paused = true ∧
    (togglePlay (togglePlay initState)).playIcon = "fa-solid fa-play" ∧
    togglePlay (togglePlay initState) = initState := by
  have h := C8_toggle_twice_paused initState rfl
  exact ⟨rfl, h.1, h.2.1, h.2.2 rfl⟩

/-! ### C9 -/

/-- C9: the volume `input` handler sets the engine volume to the slider
value and changes nothing else — in particular the muted flag (no
auto-unmute), the remembered volume, the seeking flag and both icon
classes are untouched; a whole drag step only updates the slider value
and the engine volume. -/
theorem C9_volume_drag_frame :
    (∀ s : PlayerState, volumeInputHandler s = { s with volume := s.volumeBarValue }) ∧
    (∀ s : PlayerState,
      (volumeInputHandler s).muted = s.muted ∧
      (volumeInputHandler s).previousVolume = s.previousVolume ∧
      (volumeInputHandler s).isSeeking = s.isSeeking ∧
      (volumeInputHandler s).playIcon = s.playIcon ∧
      (volumeInputHandler s).muteIcon = s.muteIcon) ∧
    (∀ (s : PlayerState) (v : ℚ),
      volumeDrag v s = { s with volumeBarValue := v, volume := v }) :=
  ⟨fun s => rfl, fun s => ⟨rfl, rfl, rfl, rfl, rfl⟩, fun s v => rfl⟩

/-! ### C10 -/

/-- C10: immediately after construction both time displays read
`"00:00"`, a string the formatter never produces (it renders zero as
`"0:00"`); no operation other than `updateProgress` (the `timeupdate`
handler) writes the elapsed display and none other than the
`loadedmetadata` handler writes the duration display, and those two
replace the text with formatter output (`updateProgress` only when not
seeking). -/
theorem C10_initial_displays :
    initState.currentTimeText = "00:00" ∧ initState.durationText = "00:00" ∧
    formatTime 0 = "0:00" ∧
    (∀ d : ℚ, formatTime d ≠ "00:00") ∧
    (∀ (s : PlayerState) (d v : ℚ),
      (togglePlay s).currentTimeText = s.currentTimeText ∧
      (toggleMute s).currentTimeText = s.currentTimeText ∧
      (toggleFullscreen s).currentTimeText = s.currentTimeText ∧
      (skipTime d s).currentTimeText = s.currentTimeText ∧
      (loadedMetadata s).currentTimeText = s.currentTimeText ∧
      (seekInputHandler s).currentTimeText = s.currentTimeText ∧
      (seekChangeHandler s).currentTimeText = s.currentTimeText ∧
      (volumeInputHandler s).currentTimeText = s.currentTimeText ∧
      (seekDrag v s).currentTimeText = s.currentTimeText ∧
      (volumeDrag v s).currentTimeText = s.currentTimeText) ∧
    (∀ (s : PlayerState) (d v : ℚ),
      (togglePlay s).durationText = s.durationText ∧
      (toggleMute s).durationText = s.durationText ∧
      (toggleFullscreen s).durationText = s.durationText ∧
      (skipTime d s).durationText = s.durationText ∧
      (updateProgress s).durationText = s.durationText ∧
      (seekInputHandler s).durationText = s.durationText ∧
      (seekChangeHandler s).durationText = s.durationText ∧
      (volumeInputHandler s).durationText = s.durationText ∧
      (seekDrag v s).durationText = s.durationText ∧
      (volumeDrag v s).durationText = s.durationText) ∧
    (∀ s : PlayerState, (updateProgress s).currentTimeText =
      if s.isSeeking then s.currentTimeText else formatTime s.currentTime) ∧
    (∀ s : PlayerState, (loadedMetadata s).durationText = formatTime s.duration) := by
  refine ⟨rfl, rfl, formatTime_zero, formatTime_ne_double_zero, ?_, ?_, ?_, fun s => rfl⟩
  · intro s d v
    refine ⟨?_, ?_, ?_, rfl, rfl, rfl, rfl, rfl, rfl, rfl⟩
    · simp only [togglePlay]
      split_ifs <;> rfl
    · simp only [toggleMute]
      split_ifs <;> rfl
    · simp only [toggleFullscreen]
      split_ifs <;> rfl
  · intro s d v
    refine ⟨?_, ?_, ?_, rfl, ?_, rfl, rfl, rfl, rfl, rfl⟩
    · simp only [togglePlay]
      split_ifs <;> rfl
    · simp only [toggleMute]
      split_ifs <;> rfl
    · simp only [toggleFullscreen]
      split_ifs <;> rfl
    · simp only [updateProgress]
      split_ifs <;> rfl
  · intro s
    simp only [updateProgress]
    split_ifs <;> rfl

/-- Witness for C10 at `d = 0` and the freshly constructed state. -/
theorem C10_initial_displays_witness :
    formatTime 0 ≠ "00:00" ∧
    (updateProgress initState).currentTimeText =
      (if initState.isSeeking then initState.currentTimeText
       else formatTime initState.currentTime) :=
  ⟨C10_initial_displays.2.2.2.1 0, C10_initial_displays.2.2.2.2.2.2.1 initState⟩
